import Mathlib

/-!
Shallow embedding of the `async_tiny` HTTP server bridge (`src/lib.rs`).

Strings and byte buffers are modelled as `List Char`; `u16` status codes as
`Nat`; Rust `Option`/`Result` as Lean `Option`/`Except`.  The external
collaborators (`http` crate header validation, tokio oneshot/mpsc channels,
hyper) are modelled only as far as the code under verification observes them:
header name/value validation follows the `http` crate byte tables, a oneshot
channel is a record of receiver liveness plus the delivered value, and the
mpsc push is abstracted to whether the consuming end is still open.
-/

namespace AsyncTiny

/-! ## Header validation (the `http` crate surface used by `lib.rs`) -/

/-- The byte class accepted by `HeaderName::from_bytes`: HTTP token characters
(digits, letters, and `!#$%&'*+-.^_` backtick `|~`). -/
def isTokenChar (c : Char) : Bool :=
  let n := c.toNat
  (48 ≤ n ∧ n ≤ 57) ∨ (65 ≤ n ∧ n ≤ 90) ∨ (97 ≤ n ∧ n ≤ 122) ∨
  n = 33 ∨ n = 35 ∨ n = 36 ∨ n = 37 ∨ n = 38 ∨ n = 39 ∨ n = 42 ∨
  n = 43 ∨ n = 45 ∨ n = 46 ∨ n = 94 ∨ n = 95 ∨ n = 96 ∨ n = 124 ∨ n = 126

/-- Lowercasing applied by `HeaderName::from_bytes` to ASCII uppercase. -/
def lowerChar (c : Char) : Char :=
  if 65 ≤ c.toNat ∧ c.toNat ≤ 90 then Char.ofNat (c.toNat + 32) else c

/-- `HeaderName::from_bytes`: succeeds on a nonempty all-token string and
returns the canonical (lowercased) name. -/
def headerNameFromBytes (s : List Char) : Option (List Char) :=
  if s ≠ [] ∧ s.all isTokenChar then some (s.map lowerChar) else none

/-- The byte class accepted by `HeaderValue::from_str`: horizontal tab or any
byte that is at least 32 and not 127 (DEL). -/
def isValueChar (c : Char) : Bool :=
  c.toNat = 9 ∨ (32 ≤ c.toNat ∧ c.toNat ≠ 127)

/-- `HeaderValue::from_str`: succeeds iff every byte is a legal value byte. -/
def headerValueFromStr (s : List Char) : Option (List Char) :=
  if s.all isValueChar then some s else none

/-- Rust `char::is_whitespace` (the Unicode White_Space code points). -/
def isRustWhitespace (c : Char) : Bool :=
  let n := c.toNat
  n = 9 ∨ n = 10 ∨ n = 11 ∨ n = 12 ∨ n = 13 ∨ n = 32 ∨ n = 133 ∨
  n = 160 ∨ n = 5760 ∨ (8192 ≤ n ∧ n ≤ 8202) ∨ n = 8232 ∨ n = 8233 ∨
  n = 8239 ∨ n = 8287 ∨ n = 12288

/-- Rust `str::trim`: drop whitespace from both ends. -/
def rustTrim (s : List Char) : List Char :=
  ((s.dropWhile isRustWhitespace).reverse.dropWhile isRustWhitespace).reverse

/-- The first step of `s.splitn(2, ':')`: the part before the first colon,
and, when a colon exists, the remainder after it. -/
def splitOnceColon (s : List Char) : List Char × Option (List Char) :=
  match s with
  | [] => ([], none)
  | c :: rest =>
    if c = ':' then ([], some rest)
    else
      let p := splitOnceColon rest
      (c :: p.1, p.2)

/-! ## Header (`pub struct Header(pub HeaderName, pub HeaderValue)`) -/

structure Header where
  name : List Char
  value : List Char
deriving DecidableEq

inductive HeaderParseError
  | invalidFormat
  | invalidName
  | invalidValue
deriving DecidableEq

/-- `impl FromStr for Header` (`lib.rs` lines 255-268): split once on the
first colon, trim both parts, validate name then value. -/
def Header.from_str (s : List Char) : Except HeaderParseError Header :=
  let p := splitOnceColon s
  match p.2 with
  | none => .error .invalidFormat
  | some valuePart =>
    let name := rustTrim p.1
    let value := rustTrim valuePart
    match headerNameFromBytes name with
    | none => .error .invalidName
    | some hn =>
      match headerValueFromStr value with
      | none => .error .invalidValue
      | some hv => .ok ⟨hn, hv⟩

/-! ## Response (`lib.rs` lines 179-232) -/

structure Response where
  status : Nat
  headers : List (List Char × List Char)
  body : List Char
deriving DecidableEq

/-- `StatusCode::from_u16`: valid codes are 100..=999. -/
def statusFromU16 (code : Nat) : Option Nat :=
  if 100 ≤ code ∧ code ≤ 999 then some code else none

/-- `HeaderMap::insert`: replace any values previously held under the name. -/
def headerInsert (hs : List (List Char × List Char)) (n v : List Char) :
    List (List Char × List Char) :=
  (hs.filter fun p => p.1 ≠ n) ++ [(n, v)]

def Response.from_data (data : List Char) : Response :=
  { status := 200, headers := [], body := data }

def Response.from_string (s : List Char) : Response :=
  Response.from_data s

def Response.from_status_and_string (code : Nat) (s : List Char) : Response :=
  { status := (statusFromU16 code).getD 200, headers := [], body := s }

def Response.empty (status : Nat) : Response :=
  { status := (statusFromU16 status).getD 200, headers := [], body := [] }

def Response.with_status_code (r : Response) (code : Nat) : Response :=
  { r with status := (statusFromU16 code).getD 200 }

def Response.with_header (r : Response) (h : Header) : Response :=
  { r with headers := headerInsert r.headers h.name h.value }

/-- `with_content_type` builds the line `"Content-Type: " ++ value`, parses it
as a `Header` and `expect`s the result; `none` models the panic. -/
def Response.with_content_type (r : Response) (value : List Char) :
    Option Response :=
  match Header.from_str (String.toList "Content-Type: " ++ value) with
  | .ok h => some (r.with_header h)
  | .error _ => none

/-! ## The oneshot reply slot and the Request (`lib.rs` lines 130-176) -/

/-- The tokio `oneshot` channel paired with a `Request`.  `rxAlive` records
whether the connection task still holds the receiving end; `sent` is the
delivered response, if any; `uses` counts how many times a sender was
consumed by a `send` call. -/
structure Oneshot where
  rxAlive : Bool
  sent : Option Response
  uses : Nat
deriving DecidableEq

/-- `oneshot::Sender::send`: consumes the sender; delivery succeeds iff the
receiver is still alive, and the value is lost (with an error to the sender)
otherwise. -/
def Oneshot.send (ch : Oneshot) (r : Response) : Oneshot × Bool :=
  if ch.rxAlive then ({ ch with sent := some r, uses := ch.uses + 1 }, true)
  else ({ ch with uses := ch.uses + 1 }, false)

inductive RespondError
  | alreadyResponded
  | channelClosed
deriving DecidableEq

/-- `pub struct Request`: `respond_tx` is `true` while the
`Option<oneshot::Sender<Response>>` is still `Some`. -/
structure Request where
  method : List Char
  headers : List (List Char × List Char)
  url : List Char
  body : List Char
  respond_tx : Bool
deriving DecidableEq

/-- The `Request` built by the service closure (`lib.rs` lines 78-86): its
reply channel is fresh and present. -/
def mkServerRequest (method : List Char) (headers : List (List Char × List Char))
    (url : List Char) (body : List Char) : Request × Oneshot :=
  (⟨method, headers, url, body, true⟩, ⟨true, none, 0⟩)

/-- `Request::respond` (`lib.rs` lines 155-161): `take()` the sender or fail
with `AlreadyResponded`; then `send`, mapping a send error to
`ChannelClosed`.  The state of the (consumed) request and of the channel is
returned alongside the result. -/
def Request.respond (req : Request) (ch : Oneshot) (response : Response) :
    Request × Oneshot × Except RespondError Unit :=
  if req.respond_tx then
    let req := { req with respond_tx := false }
    let p := ch.send response
    (req, p.1, if p.2 then .ok () else .error .channelClosed)
  else
    (req, ch, .error .alreadyResponded)

/-- `impl Drop for Request` (`lib.rs` lines 164-170): if the sender is still
present, take it and send the 500 "No response" fallback, ignoring a send
error. -/
def Request.dropRun (req : Request) (ch : Oneshot) : Request × Oneshot :=
  if req.respond_tx then
    let req := { req with respond_tx := false }
    let p := ch.send (Response.from_status_and_string 500 (String.toList "No response"))
    (req, p.1)
  else (req, ch)

/-- A sequence of `respond` calls threading the request and channel state. -/
def runResponds (req : Request) (ch : Oneshot) : List Response → Request × Oneshot
  | [] => (req, ch)
  | r :: rs =>
    let p := Request.respond req ch r
    runResponds p.1 p.2.1 rs

/-- A full lifetime of a `Request` value: some `respond` calls, then the
destructor, which Rust runs on every exit path. -/
def lifecycle (req : Request) (ch : Oneshot) (rs : List Response) :
    Request × Oneshot :=
  let p := runResponds req ch rs
  Request.dropRun p.1 p.2

/-! ## The per-request service closure and hyper plumbing (`lib.rs` 66-115, 277-294) -/

/-- The hyper response handed back to the connection (status, headers, body). -/
structure HyperResponse where
  status : Nat
  headers : List (List Char × List Char)
  body : List Char
deriving DecidableEq

/-- `to_hyper_response`: copy status, append every header, set the body. -/
def to_hyper_response (r : Response) : HyperResponse :=
  ⟨r.status, r.headers, r.body⟩

/-- `response_text`: a plain-text response with the given (valid) status. -/
def response_text (status : Nat) (text : List Char) : HyperResponse :=
  to_hyper_response
    ((Response.from_status_and_string status text).with_header
      ⟨String.toList "content-type", String.toList "text/plain; charset=utf-8"⟩)

/-- One run of the service closure (`lib.rs` lines 88-103) after the request
has been built: `queueOpen` is whether `tx.send(request)` succeeds (the mpsc
consumer end still exists), `slotResult` is what `resp_rx.await` yields when
the request was enqueued.  Returns the hyper response written back and
whether the request was pushed onto the bridge queue. -/
def serviceStep (queueOpen : Bool) (req : Request) (slotResult : Option Response) :
    HyperResponse × Bool :=
  if queueOpen then
    match slotResult with
    | some r => (to_hyper_response r, true)
    | none => (response_text 500 (String.toList "Internal Server Error"), true)
  else
    (response_text 503 (String.toList "Service Unavailable"), false)

/-! ## Server::http (`lib.rs` lines 38-121) -/

structure IoError where
  msg : List Char
deriving DecidableEq

structure SocketAddr where
  host : List Char
  port : Nat
deriving DecidableEq

/-- The state the spawned acceptance task reaches at startup. -/
inductive AcceptorTask
  | panicked (msg : List Char)
  | listening (addr : SocketAddr)
deriving DecidableEq

/-- The `Server` value returned to the caller, carrying the handle to the
spawned acceptance task. -/
structure ServerHandle where
  task : AcceptorTask
deriving DecidableEq

/-- The first step of the spawned task (`lib.rs` line 47):
`TcpListener::bind(addr).await.expect("bind failed")` — a bind error panics
the task, a success enters the accept loop. -/
def bindTaskStart (addr : SocketAddr) (bindResult : Except IoError Unit) :
    AcceptorTask :=
  match bindResult with
  | .ok _ => .listening addr
  | .error _ => .panicked (String.toList "bind failed")

/-- `Server::http` (`lib.rs` lines 38-47 and 120-121), parametrised by the
environment's answers: `parseResult` is what `addr.parse()` (already mapped
through `into_io_error`) yields, `bindResult` what `TcpListener::bind` will
yield inside the spawned task.  A parse error is returned with `?`; otherwise
the task is spawned and `Ok(Server)` is returned unconditionally. -/
def Server.http (parseResult : Except IoError SocketAddr)
    (bindResult : Except IoError Unit) : Except IoError ServerHandle :=
  match parseResult with
  | .error e => .error e
  | .ok addr => .ok ⟨bindTaskStart addr bindResult⟩

/-! ## Helper lemmas -/

/-- `splitn(2, ':')` finds the first colon: on `pre ++ ':' :: post` with no
colon in `pre`, the parts are exactly `pre` and `post`. -/
theorem splitOnceColon_append (pre post : List Char) (h : ':' ∉ pre) :
    splitOnceColon (pre ++ ':' :: post) = (pre, some post) := by
  induction pre with
  | nil => simp [splitOnceColon]
  | cons c cs ih =>
    have hc : ¬(c = ':') := fun hc => h (hc ▸ List.mem_cons_self c cs)
    have hcs : ':' ∉ cs := fun hm => h (List.mem_cons_of_mem c hm)
    simp [splitOnceColon, hc, ih hcs]

/-- A leading space is removed by `str::trim`. -/
theorem rustTrim_cons_space (v : List Char) : rustTrim (' ' :: v) = rustTrim v := by
  have hws : isRustWhitespace ' ' = true := by decide
  simp [rustTrim, List.dropWhile, hws]

/-- `Header::from_str` on a line with a colon: the parts are trimmed, then
the name and the value are validated in that order. -/
theorem header_from_str_split (pre post : List Char) (h : ':' ∉ pre) :
    Header.from_str (pre ++ ':' :: post) =
      match headerNameFromBytes (rustTrim pre) with
      | none => .error .invalidName
      | some hn =>
        match headerValueFromStr (rustTrim post) with
        | none => .error .invalidValue
        | some hv => .ok ⟨hn, hv⟩ := by
  simp [Header.from_str, splitOnceColon_append pre post h]

/-- A `respond` call on a request whose sender was already taken changes
nothing, so a whole sequence of them changes nothing. -/
theorem runResponds_spent (req : Request) (ch : Oneshot) (rs : List Response)
    (h : req.respond_tx = false) : runResponds req ch rs = (req, ch) := by
  induction rs with
  | nil => rfl
  | cons r rs ih => simp [runResponds, Request.respond, h, ih]

/-! ## Claim theorems -/

/-- C1: over any full lifetime of a Request whose reply sender is present
(any sequence of respond() calls followed by the destructor), the oneshot
sender is consumed exactly once, and if the connection task still holds the
receiver the slot ends up answered: no path leaves it unanswered. -/
theorem request_lifecycle_answers_once (req : Request) (ch : Oneshot)
    (rs : List Response) (hreq : req.respond_tx = true) (h0 : ch.uses = 0) :
    (lifecycle req ch rs).2.uses = 1 ∧
    (ch.rxAlive = true → ((lifecycle req ch rs).2.sent).isSome = true) := by
  cases rs with
  | nil =>
    cases hA : ch.rxAlive <;>
      simp [lifecycle, runResponds, Request.dropRun, Oneshot.send, hreq, hA, h0]
  | cons r rs =>
    cases hA : ch.rxAlive <;>
      simp [lifecycle, runResponds, Request.respond, Oneshot.send, hreq, hA, h0,
            Request.dropRun, runResponds_spent]

/-- C1 witness: a concrete fresh request dropped without responding. -/
theorem request_lifecycle_answers_once_witness :
    (lifecycle ⟨[], [], [], [], true⟩ ⟨true, none, 0⟩ []).2.uses = 1 ∧
    ((⟨true, none, 0⟩ : Oneshot).rxAlive = true →
      ((lifecycle ⟨[], [], [], [], true⟩ ⟨true, none, 0⟩ []).2.sent).isSome = true) :=
  request_lifecycle_answers_once ⟨[], [], [], [], true⟩ ⟨true, none, 0⟩ [] rfl rfl

/-- C2: dropping a Request whose respond channel is still present consumes
the sender exactly once and, when the receiver is alive, delivers the
fallback `Response::from_status_and_string(500, "No response")`, whose
status is 500 and whose body is the short diagnostic text. -/
theorem drop_unanswered_sends_500 (req : Request) (ch : Oneshot)
    (h : req.respond_tx = true) :
    (Request.dropRun req ch).2.uses = ch.uses + 1 ∧
    (ch.rxAlive = true →
      (Request.dropRun req ch).2.sent =
        some (Response.from_status_and_string 500 (String.toList "No response"))) ∧
    (Response.from_status_and_string 500 (String.toList "No response")).status = 500 ∧
    (Response.from_status_and_string 500 (String.toList "No response")).body =
      String.toList "No response" := by
  refine ⟨?_, ?_, by decide, by decide⟩ <;>
    cases hA : ch.rxAlive <;> simp [Request.dropRun, Oneshot.send, h, hA]

/-- C2 witness: a concrete unanswered request with a live receiver. -/
theorem drop_unanswered_sends_500_witness :
    (Request.dropRun ⟨[], [], [], [], true⟩ ⟨true, none, 0⟩).2.uses =
      (⟨true, none, 0⟩ : Oneshot).uses + 1 ∧
    ((⟨true, none, 0⟩ : Oneshot).rxAlive = true →
      (Request.dropRun ⟨[], [], [], [], true⟩ ⟨true, none, 0⟩).2.sent =
        some (Response.from_status_and_string 500 (String.toList "No response"))) ∧
    (Response.from_status_and_string 500 (String.toList "No response")).status = 500 ∧
    (Response.from_status_and_string 500 (String.toList "No response")).body =
      String.toList "No response" :=
  drop_unanswered_sends_500 ⟨[], [], [], [], true⟩ ⟨true, none, 0⟩ rfl

/-- C3: respond() fails with AlreadyResponded when the sender was already
taken, fails with ChannelClosed when the receiver is gone, succeeds when the
sender is present and the receiver alive; and a second respond() after a
first one (with the sender initially present) fails with AlreadyResponded. -/
theorem respond_error_semantics (req : Request) (ch : Oneshot) (r1 r2 : Response) :
    (req.respond_tx = false →
      (Request.respond req ch r1).2.2 = .error .alreadyResponded) ∧
    (req.respond_tx = true → ch.rxAlive = false →
      (Request.respond req ch r1).2.2 = .error .channelClosed) ∧
    (req.respond_tx = true → ch.rxAlive = true →
      (Request.respond req ch r1).2.2 = .ok ()) ∧
    (req.respond_tx = true →
      (Request.respond (Request.respond req ch r1).1
        (Request.respond req ch r1).2.1 r2).2.2 = .error .alreadyResponded) := by
  refine ⟨fun h => ?_, fun h hA => ?_, fun h hA => ?_, fun h => ?_⟩ <;>
    first
      | simp [Request.respond, Oneshot.send, h, hA]
      | cases hA : ch.rxAlive <;> simp [Request.respond, Oneshot.send, h, hA]

/-- C3 witness: the second respond() on a concrete fresh request fails with
AlreadyResponded. -/
theorem respond_error_semantics_witness :
    (Request.respond (Request.respond ⟨[], [], [], [], true⟩ ⟨true, none, 0⟩ (Response.empty 200)).1
      (Request.respond ⟨[], [], [], [], true⟩ ⟨true, none, 0⟩ (Response.empty 200)).2.1
      (Response.empty 200)).2.2 = .error .alreadyResponded :=
  (respond_error_semantics ⟨[], [], [], [], true⟩ ⟨true, none, 0⟩
    (Response.empty 200) (Response.empty 200)).2.2.2 rfl

/-- C9: a Request as built by the server's service closure has its reply
sender present, and since respond() consumes the Request, its single call
returns Ok or ChannelClosed — the AlreadyResponded branch is unreachable
through the public interface. -/
theorem server_request_respond_never_already_responded
    (m : List Char) (hs : List (List Char × List Char)) (u b : List Char)
    (ch : Oneshot) (r : Response) :
    (Request.respond (mkServerRequest m hs u b).1 ch r).2.2 = .ok () ∨
    (Request.respond (mkServerRequest m hs u b).1 ch r).2.2 = .error .channelClosed := by
  cases hA : ch.rxAlive <;> simp [mkServerRequest, Request.respond, Oneshot.send, hA]

/-- C4 counterexample: with a parseable address but a failing socket bind
(port in use), `Server::http` still returns `Ok` with a live handle — the
bind failure panics the spawned acceptance task and is never surfaced as an
error to the caller, contrary to the claim. -/
theorem http_bind_failure_not_surfaced :
    Server.http (.ok ⟨String.toList "127.0.0.1", 8080⟩)
        (.error ⟨String.toList "port in use"⟩) =
      .ok ⟨.panicked (String.toList "bind failed")⟩ ∧
    (Server.http (.ok ⟨String.toList "127.0.0.1", 8080⟩)
        (.error ⟨String.toList "port in use"⟩)).isOk = true :=
  ⟨rfl, rfl⟩

/-- C4 (amended): `Server::http` surfaces an invalid bind address as an error
to its caller; on any parseable address it returns a server handle, and a
socket bind failure is not surfaced — the spawned acceptance task panics
with "bind failed" instead. -/
theorem http_startup_error_semantics (parseResult : Except IoError SocketAddr)
    (bindResult : Except IoError Unit) :
    (∀ e, parseResult = .error e →
      Server.http parseResult bindResult = .error e) ∧
    (∀ a, parseResult = .ok a →
      (bindResult = .ok () →
        Server.http parseResult bindResult = .ok ⟨.listening a⟩) ∧
      (∀ e, bindResult = .error e →
        Server.http parseResult bindResult =
          .ok ⟨.panicked (String.toList "bind failed")⟩)) := by
  cases parseResult <;> cases bindResult <;>
    simp [Server.http, bindTaskStart]

/-- C4 witness: a concrete invalid address is returned as the error, and a
concrete successful bind yields a listening handle. -/
theorem http_startup_error_semantics_witness :
    Server.http (.error ⟨String.toList "invalid socket address"⟩) (.ok ()) =
      .error ⟨String.toList "invalid socket address"⟩ ∧
    Server.http (.ok ⟨String.toList "127.0.0.1", 8080⟩) (.ok ()) =
      .ok ⟨.listening ⟨String.toList "127.0.0.1", 8080⟩⟩ :=
  ⟨(http_startup_error_semantics (.error ⟨String.toList "invalid socket address"⟩)
      (.ok ())).1 _ rfl,
   ((http_startup_error_semantics (.ok ⟨String.toList "127.0.0.1", 8080⟩)
      (.ok ())).2 _ rfl).1 rfl⟩

/-- C5: Header parsing splits once on the first colon and trims whitespace
from both parts, then validates name and value; "Content-Type: text/plain"
parses to the (canonical) header name Content-Type with value text/plain,
"Malformed" (no colon) fails with the format error, and a name containing a
control character fails with the name error. -/
theorem header_from_str_semantics (pre post : List Char) (h : ':' ∉ pre) :
    (Header.from_str (pre ++ ':' :: post) =
      match headerNameFromBytes (rustTrim pre) with
      | none => .error .invalidName
      | some hn =>
        match headerValueFromStr (rustTrim post) with
        | none => .error .invalidValue
        | some hv => .ok ⟨hn, hv⟩) ∧
    Header.from_str (String.toList "Content-Type: text/plain") =
      .ok ⟨String.toList "content-type", String.toList "text/plain"⟩ ∧
    headerNameFromBytes (String.toList "Content-Type") =
      some (String.toList "content-type") ∧
    Header.from_str (String.toList "Malformed") = .error .invalidFormat ∧
    Header.from_str (String.toList "X\x00N: v") = .error .invalidName :=
  ⟨header_from_str_split pre post h, by rfl, by rfl, by rfl, by rfl⟩

/-- C5 witness: the general split-and-trim clause applied to the
Content-Type example line. -/
theorem header_from_str_semantics_witness :
    Header.from_str (String.toList "Content-Type" ++ ':' :: String.toList " text/plain") =
      match headerNameFromBytes (rustTrim (String.toList "Content-Type")) with
      | none => .error .invalidName
      | some hn =>
        match headerValueFromStr (rustTrim (String.toList " text/plain")) with
        | none => .error .invalidValue
        | some hv => .ok ⟨hn, hv⟩ :=
  (header_from_str_semantics (String.toList "Content-Type")
    (String.toList " text/plain") (by decide)).1

/-- C6: when the bridge queue's consuming end is gone, the service closure
immediately returns the synthesized 503 "Service Unavailable" response, the
request is never enqueued, and the outcome does not depend on the reply
slot at all. -/
theorem queue_closed_yields_503 (req : Request) (s1 s2 : Option Response) :
    serviceStep false req s1 =
      (response_text 503 (String.toList "Service Unavailable"), false) ∧
    (serviceStep false req s1).1.status = 503 ∧
    (serviceStep false req s1).1.body = String.toList "Service Unavailable" ∧
    (serviceStep false req s1).2 = false ∧
    serviceStep false req s1 = serviceStep false req s2 :=
  ⟨rfl, rfl, rfl, rfl, rfl⟩

/-- C7: every u16 code outside the valid HTTP range (100..=999) is replaced
by 200 in `from_status_and_string`, `empty` and `with_status_code`. -/
theorem invalid_status_defaults_200 (c : Nat) (s : List Char) (r : Response)
    (hc : c < 65536) (hinv : statusFromU16 c = none) :
    (Response.from_status_and_string c s).status = 200 ∧
    (Response.empty c).status = 200 ∧
    (r.with_status_code c).status = 200 := by
  simp [Response.from_status_and_string, Response.empty,
        Response.with_status_code, hinv]

/-- C7 witness: the invalid code 1000 yields status 200 in all three
constructors. -/
theorem invalid_status_defaults_200_witness :
    (Response.from_status_and_string 1000 []).status = 200 ∧
    (Response.empty 1000).status = 200 ∧
    ((Response.from_string (String.toList "ok")).with_status_code 1000).status = 200 :=
  invalid_status_defaults_200 1000 [] (Response.from_string (String.toList "ok"))
    (by decide) (by decide)

/-- C8: building a Response from the text "ok" yields status 200, body "ok"
and an empty header map. -/
theorem from_string_ok_response :
    (Response.from_string (String.toList "ok")).status = 200 ∧
    (Response.from_string (String.toList "ok")).body = String.toList "ok" ∧
    (Response.from_string (String.toList "ok")).headers = [] :=
  ⟨rfl, rfl, rfl⟩

/-- C10 counterexample: the value "\n" is not a valid header value
(`HeaderValue::from_str` rejects it), yet `with_content_type` does not
panic on it: the formatted line "Content-Type: \n" is trimmed, so the
newline disappears and an empty Content-Type header is set. -/
theorem with_content_type_no_panic_on_invalid :
    headerValueFromStr (String.toList "\n") = none ∧
    (Response.from_string (String.toList "x")).with_content_type
        (String.toList "\n") =
      some ⟨200, [(String.toList "content-type", [])], String.toList "x"⟩ :=
  ⟨rfl, by rfl⟩

/-- C10 (amended): `with_content_type` panics exactly when the
whitespace-trimmed value is not a valid header value; otherwise it returns
the Response with a Content-Type header set to the trimmed value (not
necessarily the given value), status and body unchanged. -/
theorem with_content_type_semantics (r : Response) (v : List Char) :
    (headerValueFromStr (rustTrim v) = none → r.with_content_type v = none) ∧
    (∀ hv, headerValueFromStr (rustTrim v) = some hv →
      r.with_content_type v =
        some { r with
               headers := headerInsert r.headers (String.toList "content-type") hv }) := by
  have hline : String.toList "Content-Type: " ++ v =
      String.toList "Content-Type" ++ ':' :: ' ' :: v := rfl
  have hname : headerNameFromBytes (rustTrim (String.toList "Content-Type")) =
      some (String.toList "content-type") := by decide
  have hfrom : Header.from_str (String.toList "Content-Type: " ++ v) =
      match headerValueFromStr (rustTrim v) with
      | none => Except.error HeaderParseError.invalidValue
      | some hv => Except.ok (⟨String.toList "content-type", hv⟩ : Header) := by
    rw [hline, header_from_str_split _ _ (by decide), rustTrim_cons_space, hname]
  constructor
  · intro hnone
    simp only [Response.with_content_type]
    rw [hfrom, hnone]
  · intro hv hsome
    simp only [Response.with_content_type]
    rw [hfrom, hsome]
    rfl

/-- C10 witness: the valid value "text/plain" sets the Content-Type header
with status and body untouched. -/
theorem with_content_type_semantics_witness :
    (Response.from_string (String.toList "ok")).with_content_type
        (String.toList "text/plain") =
      some { Response.from_string (String.toList "ok") with
             headers := headerInsert (Response.from_string (String.toList "ok")).headers
               (String.toList "content-type") (String.toList "text/plain") } :=
  (with_content_type_semantics (Response.from_string (String.toList "ok"))
    (String.toList "text/plain")).2 (String.toList "text/plain") (by decide)

end AsyncTiny
